import Mathlib

/-!
Shallow embedding of the `domestic-ai` supervisor (`src/init.py`,
`src/init_functions.py`).

Modelling conventions:
* OS-level facts that the Python code merely observes (HTTP probe results,
  which process is bound to a port, whether a process is still alive after a
  wait, whether a file write succeeds) are supplied by an `Env` record of
  oracles; the code's control flow over those observations is translated
  faithfully.
* The single piece of mutable supervisor state is the pair of globals
  `bot_process` (init_functions.py line 19) and `shutdown_in_progress`
  (init.py line 23); it is threaded explicitly as `St`.
* Every externally visible effect (sleep, probe, spawn, terminate, wait,
  kill, signal-file write/remove, the `forceful_kill_processes` sweep, the
  final `os._exit`) is recorded in an `Action` trace so that ordering and
  "no spawn happened" claims are statements about the trace.
* One Python time unit (second) is one `Nat` time unit.  The
  `while time.time() - start < timeout` poll loops, whose iteration count is
  real-time dependent, are modelled with a fuel of `startupTimeout / 2`
  iterations (one probe + one 2-unit sleep per iteration); no claim depends
  on the exact iteration count.
-/

namespace DomesticAI

/-- Outcome of one HTTP GET against a service's health URL, as the Python
code can observe it: a response with some status, a connection error
(`aiohttp.ClientError`), or a timeout (`asyncio.TimeoutError`). -/
inductive HttpResult where
  | ok (status : Nat)
  | connError
  | timeout
deriving DecidableEq, Repr

/-- `Startup.is_running` (init_functions.py lines 37-43): returns
`response.status == 200`, and `False` on `aiohttp.ClientError` or
`asyncio.TimeoutError` (both caught; no exception escapes). -/
def is_running : HttpResult → Bool
  | HttpResult.ok status => status == 200
  | HttpResult.connError => false
  | HttpResult.timeout => false

/-- Externally visible effects of the supervisor, in program order. -/
inductive Action where
  /-- one HTTP health probe of the named service, with its boolean outcome -/
  | probe (name : String) (ok : Bool)
  /-- `asyncio.sleep(units)` -/
  | sleepA (units : Nat)
  /-- `subprocess.Popen(['bash', command_path])` for the named service -/
  | spawn (name : String)
  /-- graceful termination signal (`terminate()` / SIGTERM) to a pid -/
  | terminate (pid : Nat)
  /-- `wait(timeout=units)` on a pid -/
  | waitProc (pid : Nat) (units : Nat)
  /-- forceful `kill()` of a pid -/
  | kill (pid : Nat)
  /-- writing `bot_shutdown.signal` -/
  | writeSignalFile
  /-- removing `bot_shutdown.signal` -/
  | removeSignalFile
  /-- one invocation of `forceful_kill_processes` (init.py lines 57-130) -/
  | sweep
  /-- the emergency direct-kill loop in `shutdown`'s except branch
      (init.py lines 220-235) -/
  | emergencyKill
  /-- one invocation of `verify_shutdown` (init.py lines 132-163), with its
      boolean outcome -/
  | verifyA (clean : Bool)
  /-- `os._exit(0)` (init.py line 239) -/
  | exitSelf
deriving DecidableEq, Repr

/-- The `Startup` class (init_functions.py lines 21-35): immutable
description of one service. -/
structure Startup where
  name : String
  host : String
  port : Option Nat
  endpoint : String
  command_path : Option String
  startupTimeout : Nat
deriving DecidableEq, Repr

/-- Oracles for everything the code observes about the OS. -/
structure Env where
  /-- result of the j-th GET in `ensure_service_running`'s probe loop for a
      given service name (init_functions.py lines 203-215) -/
  ensureProbe : String → Nat → HttpResult
  /-- result of the j-th GET in `Startup.start`'s wait-until-available loop
      (init_functions.py lines 82-92) -/
  startProbe : String → Nat → HttpResult
  /-- `find_process_by_port` (init_functions.py lines 244-259): the pid, if
      any, that the psutil scan finds bound to a port -/
  portProc : Nat → Option Nat
  /-- whether a pid being waited on with `wait(timeout=5)` exits within the
      wait (false = `TimeoutExpired`) -/
  exitsInWait : Nat → Bool
  /-- whether the launch script path exists on disk; when it does not,
      `bash <path>` exits immediately, so the spawned handle is already dead
      at any later `poll()` -/
  pathExists : String → Bool
  /-- whether a freshly spawned bot survives the 5-unit settle sleep,
      assuming its script path existed -/
  botSurvivesSettle : Bool
  /-- pid assigned by the OS to a newly spawned bot process -/
  newPid : Nat
  /-- `bot_process.poll() is None` for the already-tracked bot at the top of
      `ensure_service_running` (init_functions.py line 194) -/
  trackedBotAlive : Bool
  /-- `bot_process.poll() is None` after the 3-unit signal-file grace sleep
      in `stop_service` (init_functions.py line 278) -/
  botAliveAfterSignal : Bool
  /-- whether the tracked bot exits within `wait(timeout=5)` after SIGTERM
      (false = `TimeoutExpired`, so `kill()` follows) -/
  botExitsInWait : Bool
  /-- pids found by the python+`bot.py` cmdline scan in `stop_service`'s
      untracked branch (init_functions.py lines 311-325) -/
  pyBotProcs : List Nat
  /-- pids found by the `run-bot.command` cmdline scans
      (init_functions.py lines 140-154 and 328-342) -/
  runBotProcs : List Nat
  /-- the single pid, if any, found by `Startup.stop`'s `run-bot.command`
      scan (which stops at the first hit, init_functions.py lines 140-154) -/
  runBotProc : Option Nat
  /-- whether opening/writing the shutdown signal file in `shutdown`
      succeeds (init.py lines 178-180); a failure is the representative
      trigger for `shutdown`'s except branch -/
  signalWriteOk : Bool
  /-- whether `bot_shutdown.signal` still exists at an
      `os.path.exists` cleanup check -/
  signalFilePresent : Bool
  /-- result of the k-th `verify_shutdown` call inside `shutdown`
      (init.py lines 198 and 204) -/
  verifyClean : Nat → Bool

/-- The supervisor's mutable globals: `bot_process` (init_functions.py
line 19, here just its pid) and `shutdown_in_progress` (init.py line 23). -/
structure St where
  botProcess : Option Nat
  shutdownInProgress : Bool
deriving DecidableEq, Repr

/-- Boolean outcome of the j-th probe in the `ensure_service_running` loop. -/
def probeOk (env : Env) (name : String) (j : Nat) : Bool :=
  is_running (env.ensureProbe name j)

/-- Boolean outcome of the j-th probe in `Startup.start`'s wait loop. -/
def startProbeOk (env : Env) (name : String) (j : Nat) : Bool :=
  is_running (env.startProbe name j)

/-- The terminate / `wait(timeout=5)` / `kill()`-on-timeout escalation
pattern that the source repeats for every process it stops by pid
(init_functions.py lines 145-150, 226-230, 316-322, 331-339). -/
def escalate (env : Env) (pid : Nat) : List Action :=
  Action.terminate pid :: Action.waitProc pid 5 ::
    (if env.exitsInWait pid then [] else [Action.kill pid])

/-- The `if os.path.exists(signal_file): os.remove(signal_file)` cleanup
(init_functions.py lines 129-130, 296-298, 351-356; init.py lines 207-213). -/
def cleanupTrace (env : Env) : List Action :=
  if env.signalFilePresent then [Action.removeSignalFile] else []

/-- The wait-until-available loop of `Startup.start` (init_functions.py
lines 82-92): probe, return success on 200, otherwise sleep 2 and retry
until the startup timeout runs out.  `fuel` is the remaining number of
iterations, `i` the index of the next probe. -/
def startPoll (env : Env) (name : String) : Nat → Nat → Bool × List Action
  | 0, _ => (false, [])
  | fuel + 1, i =>
    if startProbeOk env name i then
      (true, [Action.probe name true])
    else
      let r := startPoll env name fuel (i + 1)
      (r.1, Action.probe name false :: Action.sleepA 2 :: r.2)

/-- `Startup.start` (init_functions.py lines 45-99).  With no command path
it fails at once (lines 48-50).  For the bot (lines 54-70) it spawns,
records the handle in the `bot_process` global, sleeps 5 units and then
reports whether `poll()` still returns `None`.  For HTTP services
(lines 72-95) it spawns without keeping the handle and polls the endpoint
until healthy or timed out. -/
def Startup.start (env : Env) (st : St) (svc : Startup) : Bool × St × List Action :=
  match svc.command_path with
  | none => (false, st, [])
  | some _ =>
    if svc.name = "Bot" then
      let st1 : St := { st with botProcess := some env.newPid }
      let alive := env.pathExists svc.name && env.botSurvivesSettle
      (alive, st1, [Action.spawn svc.name, Action.sleepA 5])
    else
      let r := startPoll env svc.name (svc.startupTimeout / 2) 0
      (r.1, st, Action.spawn svc.name :: r.2)

/-- The probe loop of `ensure_service_running` (init_functions.py
lines 203-215): up to `maxA` probes, sleeping 2 units after every failed
attempt except the last (`if attempt < max_attempts - 1`). -/
def probeLoop (env : Env) (name : String) (maxA : Nat) : Nat → Nat → Bool × List Action
  | 0, _ => (false, [])
  | fuel + 1, attempt =>
    if probeOk env name attempt then
      (true, [Action.probe name true])
    else
      let r := probeLoop env name maxA fuel (attempt + 1)
      (r.1, Action.probe name false ::
        (if attempt + 1 < maxA then Action.sleepA 2 :: r.2 else r.2))

/-- `ensure_service_running` (init_functions.py lines 187-235).  Bot: if a
tracked process exists and is alive return success, else start (lines
192-200).  Others: probe up to `max_attempts` times; on success return
without touching anything; otherwise terminate whatever process is bound to
the service's port (grace `wait(timeout=5)`, then `kill()`), and start the
service (lines 202-235). -/
def ensure_service_running (env : Env) (st : St) (svc : Startup)
    (max_attempts : Nat) : Bool × St × List Action :=
  if svc.name = "Bot" then
    match st.botProcess with
    | some _ =>
      if env.trackedBotAlive then (true, st, [])
      else Startup.start env st svc
    | none => Startup.start env st svc
  else
    let pr := probeLoop env svc.name max_attempts max_attempts 0
    if pr.1 then (true, st, pr.2)
    else
      let portT : List Action :=
        match svc.port with
        | none => []
        | some prt =>
          match env.portProc prt with
          | none => []
          | some pid => escalate env pid
      let r := Startup.start env st svc
      (r.1, r.2.1, pr.2 ++ portT ++ r.2.2)

/-- `ensure_services_running` (init_functions.py lines 237-242): run
`ensure_service_running` on each listed service in order, recording each
result under the service's name, regardless of earlier failures. -/
def ensure_services_running (env : Env) :
    St → List Startup → List (String × Bool) × St × List Action
  | st, [] => ([], st, [])
  | st, s :: rest =>
    let r := ensure_service_running env st s 5
    let r2 := ensure_services_running env r.2.1 rest
    ((s.name, r.1) :: r2.1, r2.2.1, r.2.2 ++ r2.2.2)

/-- The `services` list entries (init_functions.py lines 159-185); command
paths are relative to `DOMESTIC_AI_PATH`. -/
def apiService : Startup :=
  { name := "API", host := "0.0.0.0", port := some 8000,
    endpoint := "/api_endpoints",
    command_path := some "domestic-api/run-api.command", startupTimeout := 60 }

def botService : Startup :=
  { name := "Bot", host := "localhost", port := none, endpoint := "/",
    command_path := some "domestic-bot/run-bot.command", startupTimeout := 60 }

def rembgService : Startup :=
  { name := "Rembg Tool", host := "localhost", port := some 8008,
    endpoint := "/",
    command_path := some "domestic-tools/domestic-rembg/run-rembg.command",
    startupTimeout := 60 }

def imagenService : Startup :=
  { name := "Image Generation Tool", host := "localhost", port := some 8042,
    endpoint := "/queue-status",
    command_path := some "domestic-tools/domestic-imagen/run-imagen.command",
    startupTimeout := 60 }

/-- The global `services` list (init_functions.py lines 159-185). -/
def services : List Startup := [apiService, botService, rembgService, imagenService]

/-- Truthiness of a Python value that is either `None`, `True` or `False`,
as used by `all(results.values())`. -/
def truthy : Option Bool → Bool
  | some b => b
  | none => false

/-- `Startup.stop` (init_functions.py lines 101-157).  The whole method body
is the `if self.name == "Bot":` block; in particular the final
`return True` (lines 156-157) is inside that block, so for a non-Bot
service the method falls off the end and returns Python `None` with no
effect.  Bot with a tracked process (lines 106-137): write the signal file,
sleep 3, `terminate()`, `wait(timeout=5)`, `kill()` on timeout, remove the
signal file, clear the global, return `True`.  Bot without a tracked process
(lines 139-154): terminate the first `run-bot.command` process the psutil
scan finds (same wait/kill escalation) and return `True`; if none is found,
return `True` (lines 156-157). -/
def Startup.stop (env : Env) (st : St) (svc : Startup) :
    Option Bool × St × List Action :=
  if svc.name = "Bot" then
    match st.botProcess with
    | some pid =>
      let esc := if env.botExitsInWait then [] else [Action.kill pid]
      (some true, { st with botProcess := none },
        Action.writeSignalFile :: Action.sleepA 3 ::
          Action.terminate pid :: Action.waitProc pid 5 :: esc ++ cleanupTrace env)
    | none =>
      match env.runBotProc with
      | some pid => (some true, st, escalate env pid)
      | none => (some true, st, [])
  else
    (none, st, [])

/-- The terminate/wait/kill escalation applied to each pid found by the
psutil cmdline scans in `stop_service`'s untracked-bot branch
(init_functions.py lines 311-342). -/
def stopFound (env : Env) : List Nat → List Action
  | [] => []
  | pid :: rest => escalate env pid ++ stopFound env rest

/-- `stop_service` (init_functions.py lines 261-365).  Bot with a tracked
process (lines 265-305): write the signal file, sleep 3, and only if
`poll()` still returns `None` send SIGTERM, `wait(timeout=5)` and `kill()`
on timeout; then remove the signal file, clear the global and return
`True`.  Bot without a tracked process (lines 307-363): terminate every
`python … bot.py` process, then every `run-bot.command` process, write the
signal file anyway, sleep 3, remove it, return `True`.  Any other service
(lines 364-365): delegate to `Startup.stop`. -/
def stop_service (env : Env) (st : St) (svc : Startup) :
    Option Bool × St × List Action :=
  if svc.name = "Bot" then
    match st.botProcess with
    | some pid =>
      let mid : List Action :=
        if env.botAliveAfterSignal then
          Action.terminate pid :: Action.waitProc pid 5 ::
            (if env.botExitsInWait then [] else [Action.kill pid])
        else []
      (some true, { st with botProcess := none },
        Action.writeSignalFile :: Action.sleepA 3 :: mid ++ cleanupTrace env)
    | none =>
      (some true, st,
        stopFound env env.pyBotProcs ++ stopFound env env.runBotProcs ++
          Action.writeSignalFile :: Action.sleepA 3 :: cleanupTrace env)
  else
    Startup.stop env st svc

/-- `stop_services` (init_functions.py lines 367-372): stop each listed
service in order, recording each result under the service's name. -/
def stop_services (env : Env) :
    St → List Startup → List (String × Option Bool) × St × List Action
  | st, [] => ([], st, [])
  | st, s :: rest =>
    let r := stop_service env st s
    let r2 := stop_services env r.2.1 rest
    ((s.name, r.1) :: r2.1, r2.2.1, r.2.2 ++ r2.2.2)

/-- `stop_all_services` (init_functions.py lines 374-378):
`all(results.values())` over the stop results of the global `services`
list (Python `all` treats `None` as falsy). -/
def stop_all_services (env : Env) (st : St) : Bool × St × List Action :=
  let r := stop_services env st services
  (r.1.all fun p => truthy p.2, r.2.1, r.2.2)

/-- `wait_for_api` (init_functions.py lines 392-396): `ensure_service_running`
on the service named "API" from the global list (`next(...)` always finds
it; the `none` arm is unreachable). -/
def wait_for_api (env : Env) (st : St) : Bool × St × List Action :=
  match services.find? (fun s => s.name == "API") with
  | some s => ensure_service_running env st s 5
  | none => (false, st, [])

/-- `start_bot` (init_functions.py lines 398-402): `ensure_service_running`
on the "Bot" service, with the boolean result discarded. -/
def start_bot (env : Env) (st : St) : St × List Action :=
  match services.find? (fun s => s.name == "Bot") with
  | some s =>
    let r := ensure_service_running env st s 5
    (r.2.1, r.2.2)
  | none => (st, [])

/-- `start_tools` (init_functions.py lines 404-409): ensure every service
except the API is running, returning `all(results.values())`. -/
def start_tools (env : Env) (st : St) : Bool × St × List Action :=
  let tools := services.filter fun s => s.name != "API"
  let r := ensure_services_running env st tools
  (r.1.all fun p => p.2, r.2.1, r.2.2)

/-- `initialize_services` (init.py lines 25-55): wait for the API and abort
with failure if it is unavailable; otherwise start the tools (result only
logged), start the bot, and return success. -/
def initialize_services (env : Env) (st : St) : Bool × St × List Action :=
  let api := wait_for_api env st
  if api.1 then
    let tools := start_tools env api.2.1
    let bot := start_bot env tools.2.1
    (true, bot.1, api.2.2 ++ tools.2.2 ++ bot.2)
  else
    (false, api.2.1, api.2.2)

/-- The verification tail of `shutdown` (init.py lines 197-205): one
`verify_shutdown`; if it reports leftovers, one more
`forceful_kill_processes` and a final `verify_shutdown` (whose failure is
only logged). -/
def verifyTrace (env : Env) : List Action :=
  if env.verifyClean 0 then [Action.verifyA true]
  else [Action.verifyA false, Action.sweep, Action.verifyA (env.verifyClean 1)]

/-- The try/except part of `shutdown` (init.py lines 176-235): on the
normal path (the signal-file write succeeds) write the signal file, sleep 2,
run `stop_all_services`, sleep 1, run `forceful_kill_processes`, verify
(re-sweeping once on failure, lines 197-205), and remove the signal file if
still present; if the signal-file write raises (the representative exception
source, lines 178-180), run the emergency direct-kill loop of the except
branch (lines 215-235) instead. -/
def shutdownBody (env : Env) (st1 : St) : List Action :=
  if env.signalWriteOk then
    Action.writeSignalFile :: Action.sleepA 2 ::
      (stop_all_services env st1).2.2 ++ Action.sleepA 1 :: Action.sweep ::
        verifyTrace env ++ cleanupTrace env
  else
    [Action.emergencyKill]

/-- `shutdown` (init.py lines 165-239).  Guarded by the
`shutdown_in_progress` flag (lines 169-173): a call while it is set returns
immediately with no effect.  Otherwise it sets the flag, runs the
try/except body, and the finally block (lines 236-239) always ends with
`os._exit(0)`. -/
def shutdown (env : Env) (st : St) : St × List Action :=
  if st.shutdownInProgress then (st, [])
  else
    let st1 : St := { st with shutdownInProgress := true }
    ((if env.signalWriteOk then (stop_all_services env st1).2.1 else st1),
      shutdownBody env st1 ++ [Action.exitSelf])

/-- Number of processes the supervisor is tracking: the code's only tracked
handle is the single `bot_process` global. -/
def trackedCount (st : St) : Nat :=
  match st.botProcess with
  | some _ => 1
  | none => 0

/-! ### Trace classification helpers -/

def isTerm : Action → Bool
  | Action.terminate _ => true
  | _ => false

def isSweep : Action → Bool
  | Action.sweep => true
  | _ => false

def isSpawn : Action → Bool
  | Action.spawn _ => true
  | _ => false

def isKill : Action → Bool
  | Action.kill _ => true
  | _ => false

def isExit : Action → Bool
  | Action.exitSelf => true
  | _ => false

def isSleep2 : Action → Bool
  | Action.sleepA u => u == 2
  | _ => false

/-- Actions that the per-service stop layer can emit (used to show that the
graceful layer contains no sweep, no spawn and no exit). -/
def stopAct : Action → Bool
  | Action.writeSignalFile => true
  | Action.sleepA _ => true
  | Action.terminate _ => true
  | Action.waitProc _ _ => true
  | Action.kill _ => true
  | Action.removeSignalFile => true
  | _ => false

/-- `p`-actions strictly precede `q`-actions everywhere in the trace `l`. -/
def precedes (p q : Action → Bool) (l : List Action) : Prop :=
  ∀ i j (hi : i < l.length) (hj : j < l.length),
    p (l.get ⟨i, hi⟩) = true → q (l.get ⟨j, hj⟩) = true → i < j

/-- No `p`-action occurs before position `n` of the trace `l`. -/
def notBefore (p : Action → Bool) (n : Nat) (l : List Action) : Prop :=
  ∀ i (hi : i < l.length), p (l.get ⟨i, hi⟩) = true → n ≤ i

/-- `bot_process.poll() is None` after `Startup.start`'s 5-unit settle sleep
for the bot: the spawned `bash` dies at once when the script is missing,
and otherwise survival is the environment's choice. -/
def botSettleAlive (env : Env) : Bool :=
  env.pathExists "Bot" && env.botSurvivesSettle

/-- Environment of a launch-script-less service: `bash <path>` exits at
once and nothing ever answers the service's health endpoint, so every
probe (both in `ensure_service_running` and in `Startup.start`) fails. -/
def commandPathMissing (env : Env) (name : String) : Prop :=
  env.pathExists name = false ∧ (∀ j, probeOk env name j = false) ∧
    (∀ j, startProbeOk env name j = false)

/-- A quiet concrete environment: every probe fails with a connection
error, no port is occupied, every waited-on process exits in time, no
script path exists, and shutdown's oracles are benign. -/
def env0 : Env :=
  { ensureProbe := fun _ _ => HttpResult.connError,
    startProbe := fun _ _ => HttpResult.connError,
    portProc := fun _ => none,
    exitsInWait := fun _ => true,
    pathExists := fun _ => false,
    botSurvivesSettle := false,
    newPid := 101,
    trackedBotAlive := false,
    botAliveAfterSignal := true,
    botExitsInWait := true,
    pyBotProcs := [],
    runBotProcs := [],
    runBotProc := none,
    signalWriteOk := true,
    signalFilePresent := true,
    verifyClean := fun _ => true }

/-- Initial supervisor state: nothing tracked, shutdown not in progress. -/
def st0 : St := { botProcess := none, shutdownInProgress := false }

/-- A state with a tracked bot process of pid 7. -/
def st7 : St := { botProcess := some 7, shutdownInProgress := false }

/-- Environment in which the tracked bot exits on its own during the 3-unit
signal-file grace window (`poll()` is no longer `None` at
init_functions.py line 278). -/
def envBotGone : Env :=
  { env0 with botAliveAfterSignal := false }

/-- Environment in which every probe times out, the health endpoints stay
healthy from attempt 3 on for the Rembg service, all paths exist and the
bot survives its settle delay. -/
def envUp3 : Env :=
  { env0 with
    ensureProbe := fun _ j => if 2 ≤ j then HttpResult.ok 200 else HttpResult.timeout,
    pathExists := fun _ => true,
    botSurvivesSettle := true,
    trackedBotAlive := true }

/-- Environment in which pid 55 is bound to port 8008 and never exits
within a grace wait, while every probe fails. -/
def envPort55 : Env :=
  { env0 with
    portProc := fun prt => if prt == 8008 then some 55 else none,
    exitsInWait := fun _ => false }

/-- A state tracking pid 55 as the bot process. -/
def st55 : St := { botProcess := some 55, shutdownInProgress := false }

/-! ### Helper lemmas about traces -/

lemma stopAct_not_sweep {a : Action} (h : stopAct a = true) : isSweep a = false := by
  cases a <;> simp_all [stopAct, isSweep]

lemma stopAct_not_exit {a : Action} (h : stopAct a = true) : isExit a = false := by
  cases a <;> simp_all [stopAct, isExit]

lemma stopAct_not_spawn {a : Action} (h : stopAct a = true) : isSpawn a = false := by
  cases a <;> simp_all [stopAct, isSpawn]

lemma escalate_acts (env : Env) (pid : Nat) :
    ∀ a ∈ escalate env pid, stopAct a = true := by
  intro a h
  unfold escalate at h
  rcases List.mem_cons.mp h with h1 | h2
  · subst h1; rfl
  rcases List.mem_cons.mp h2 with h3 | h4
  · subst h3; rfl
  cases hc : env.exitsInWait pid <;> simp [hc] at h4
  subst h4; rfl

lemma cleanupTrace_acts (env : Env) :
    ∀ a ∈ cleanupTrace env, stopAct a = true := by
  intro a h
  unfold cleanupTrace at h
  cases hc : env.signalFilePresent <;> simp [hc] at h
  subst h; rfl

lemma stopFound_acts (env : Env) :
    ∀ l, ∀ a ∈ stopFound env l, stopAct a = true := by
  intro l
  induction l with
  | nil => intro a h; simp [stopFound] at h
  | cons p rest ih =>
    intro a h
    rw [stopFound] at h
    rcases List.mem_append.mp h with h1 | h2
    · exact escalate_acts env p a h1
    · exact ih a h2

lemma Startup.stop_acts (env : Env) (st : St) (svc : Startup) :
    ∀ a ∈ (Startup.stop env st svc).2.2, stopAct a = true := by
  intro a h
  unfold Startup.stop at h
  by_cases hn : svc.name = "Bot"
  · simp only [if_pos hn] at h
    cases hb : st.botProcess with
    | some pid =>
      rw [hb] at h
      simp only [List.mem_cons, List.mem_append] at h
      rcases h with (h | h | h | h | h) | h
      · subst h; rfl
      · subst h; rfl
      · subst h; rfl
      · subst h; rfl
      · cases hc : env.botExitsInWait <;> simp [hc] at h
        subst h; rfl
      · exact cleanupTrace_acts env a h
    | none =>
      rw [hb] at h
      cases hr : env.runBotProc with
      | some pid => rw [hr] at h; exact escalate_acts env pid a h
      | none => rw [hr] at h; simp at h
  · simp only [if_neg hn] at h
    simp at h

lemma stop_service_acts (env : Env) (st : St) (svc : Startup) :
    ∀ a ∈ (stop_service env st svc).2.2, stopAct a = true := by
  intro a h
  unfold stop_service at h
  by_cases hn : svc.name = "Bot"
  · simp only [if_pos hn] at h
    cases hb : st.botProcess with
    | some pid =>
      rw [hb] at h
      simp only [List.mem_cons, List.mem_append] at h
      rcases h with (h | h | h) | h
      · subst h; rfl
      · subst h; rfl
      · cases ha : env.botAliveAfterSignal <;> simp [ha] at h
        rcases h with h | h | h
        · subst h; rfl
        · subst h; rfl
        · cases hc : env.botExitsInWait <;> simp [hc] at h
          subst h; rfl
      · exact cleanupTrace_acts env a h
    | none =>
      rw [hb] at h
      simp only [List.mem_append, List.mem_cons] at h
      rcases h with (h | h) | h | h | h
      · exact stopFound_acts env _ a h
      · exact stopFound_acts env _ a h
      · subst h; rfl
      · subst h; rfl
      · exact cleanupTrace_acts env a h
  · simp only [if_neg hn] at h
    exact Startup.stop_acts env st svc a h

lemma stop_services_acts (env : Env) :
    ∀ l st, ∀ a ∈ (stop_services env st l).2.2, stopAct a = true := by
  intro l
  induction l with
  | nil => intro st a h; simp [stop_services] at h
  | cons s rest ih =>
    intro st a h
    rw [stop_services] at h
    rcases List.mem_append.mp h with h1 | h2
    · exact stop_service_acts env st s a h1
    · exact ih _ a h2

lemma probeLoop_acts (env : Env) (name : String) (maxA : Nat) :
    ∀ fuel attempt, ∀ a ∈ (probeLoop env name maxA fuel attempt).2,
      (∃ b, a = Action.probe name b) ∨ a = Action.sleepA 2 := by
  intro fuel
  induction fuel with
  | zero => intro attempt a h; simp [probeLoop] at h
  | succ n ih =>
    intro attempt a h
    rw [probeLoop] at h
    by_cases hp : probeOk env name attempt
    · simp [hp] at h
      subst h; exact Or.inl ⟨true, rfl⟩
    · simp only [hp, if_false, Bool.false_eq_true] at h
      rcases List.mem_cons.mp h with h1 | h2
      · exact Or.inl ⟨false, h1⟩
      by_cases hc : attempt + 1 < maxA
      · rw [if_pos hc] at h2
        rcases List.mem_cons.mp h2 with h3 | h4
        · exact Or.inr h3
        · exact ih (attempt + 1) a h4
      · rw [if_neg hc] at h2
        exact ih (attempt + 1) a h2

lemma probeLoop_fail (env : Env) (name : String) (maxA : Nat)
    (h : ∀ j, probeOk env name j = false) :
    ∀ fuel attempt, (probeLoop env name maxA fuel attempt).1 = false := by
  intro fuel
  induction fuel with
  | zero => intro attempt; rfl
  | succ n ih =>
    intro attempt
    rw [probeLoop]
    simp only [h attempt, if_false, Bool.false_eq_true]
    exact ih (attempt + 1)

lemma startPoll_acts (env : Env) (name : String) :
    ∀ fuel i, ∀ a ∈ (startPoll env name fuel i).2,
      (∃ b, a = Action.probe name b) ∨ a = Action.sleepA 2 := by
  intro fuel
  induction fuel with
  | zero => intro i a h; simp [startPoll] at h
  | succ n ih =>
    intro i a h
    rw [startPoll] at h
    by_cases hp : startProbeOk env name i
    · simp [hp] at h
      subst h; exact Or.inl ⟨true, rfl⟩
    · simp only [hp, if_false, Bool.false_eq_true] at h
      rcases List.mem_cons.mp h with h1 | h2
      · exact Or.inl ⟨false, h1⟩
      rcases List.mem_cons.mp h2 with h3 | h4
      · exact Or.inr h3
      · exact ih (i + 1) a h4

lemma startPoll_fail (env : Env) (name : String)
    (h : ∀ j, startProbeOk env name j = false) :
    ∀ fuel i, (startPoll env name fuel i).1 = false := by
  intro fuel
  induction fuel with
  | zero => intro i; rfl
  | succ n ih =>
    intro i
    rw [startPoll]
    simp only [h i, if_false, Bool.false_eq_true]
    exact ih (i + 1)

lemma get_cons_two {x y : Action} {l : List Action} :
    ∀ i (hi : i < (x :: y :: l).length),
      (x :: y :: l).get ⟨i, hi⟩ = x ∨ (x :: y :: l).get ⟨i, hi⟩ = y ∨ 2 ≤ i := by
  intro i hi
  match i, hi with
  | 0, _ => exact Or.inl rfl
  | 1, _ => exact Or.inr (Or.inl rfl)
  | n + 2, _ => exact Or.inr (Or.inr (by omega))

/-- If a predicate `p` never holds in the suffix and `q` never holds in the
prefix of a split trace, every `p`-position strictly precedes every
`q`-position. -/
lemma ordered_of_split (l1 l2 : List Action) (p q : Action → Bool)
    (h2 : ∀ a ∈ l2, p a = false) (h1 : ∀ a ∈ l1, q a = false) :
    ∀ i j (hi : i < (l1 ++ l2).length) (hj : j < (l1 ++ l2).length),
      p ((l1 ++ l2).get ⟨i, hi⟩) = true → q ((l1 ++ l2).get ⟨j, hj⟩) = true →
      i < j := by
  intro i j hi hj hp hq
  have hil : i < l1.length := by
    by_contra hc
    push_neg at hc
    have hmem : (l1 ++ l2).get ⟨i, hi⟩ ∈ l2 := by
      rw [List.get_eq_getElem, List.getElem_append_right hc]
      exact List.getElem_mem _
    rw [h2 _ hmem] at hp
    exact Bool.false_ne_true hp
  have hjl : l1.length ≤ j := by
    by_contra hc
    push_neg at hc
    have hmem : (l1 ++ l2).get ⟨j, hj⟩ ∈ l1 := by
      rw [List.get_eq_getElem, List.getElem_append_left hc]
      exact List.getElem_mem _
    rw [h1 _ hmem] at hq
    exact Bool.false_ne_true hq
  omega

lemma ordered_of_split' (l1 l2 : List Action) (p q : Action → Bool)
    (h2 : ∀ a ∈ l2, p a = false) (h1 : ∀ a ∈ l1, q a = false) :
    precedes p q (l1 ++ l2) :=
  ordered_of_split l1 l2 p q h2 h1

lemma precedes_of_no_p (p q : Action → Bool) (l : List Action)
    (h : ∀ a ∈ l, p a = false) : precedes p q l := by
  intro i j hi hj hp _
  rw [h _ (l.get_mem i hi)] at hp
  exact absurd hp Bool.false_ne_true

lemma notBefore_two (p : Action → Bool) (x y : Action) (l : List Action)
    (hx : p x = false) (hy : p y = false) : notBefore p 2 (x :: y :: l) := by
  intro i hi hp
  rcases get_cons_two i hi with h | h | h
  · rw [h, hx] at hp; cases hp
  · rw [h, hy] at hp; cases hp
  · exact h

/-! ### The graceful-stop layer over the concrete `services` list -/

lemma Startup.stop_nonbot (env : Env) (st : St) (svc : Startup)
    (h : ¬ svc.name = "Bot") : Startup.stop env st svc = (none, st, []) := by
  unfold Startup.stop
  rw [if_neg h]

lemma stop_service_nonbot (env : Env) (st : St) (svc : Startup)
    (h : ¬ svc.name = "Bot") : stop_service env st svc = (none, st, []) := by
  unfold stop_service
  rw [if_neg h]
  exact Startup.stop_nonbot env st svc h

lemma stop_service_bot_fst (env : Env) (st : St) :
    (stop_service env st botService).1 = some true := by
  unfold stop_service
  rw [if_pos (show botService.name = "Bot" from rfl)]
  cases st.botProcess <;> rfl

lemma stop_service_flag (env : Env) (st : St) (svc : Startup) :
    (stop_service env st svc).2.1.shutdownInProgress = st.shutdownInProgress := by
  unfold stop_service Startup.stop
  by_cases hn : svc.name = "Bot"
  · simp only [if_pos hn]
    cases st.botProcess <;> rfl
  · simp only [if_neg hn]

lemma stop_services_flag (env : Env) :
    ∀ (l : List Startup) (st : St),
      (stop_services env st l).2.1.shutdownInProgress = st.shutdownInProgress := by
  intro l
  induction l with
  | nil => intro st; rfl
  | cons s rest ih =>
    intro st
    show (stop_services env (stop_service env st s).2.1 rest).2.1.shutdownInProgress = _
    rw [ih, stop_service_flag]

lemma stop_services_cons (env : Env) (st : St) (s : Startup) (rest : List Startup) :
    stop_services env st (s :: rest) =
      ((s.name, (stop_service env st s).1) ::
          (stop_services env (stop_service env st s).2.1 rest).1,
        (stop_services env (stop_service env st s).2.1 rest).2.1,
        (stop_service env st s).2.2 ++
          (stop_services env (stop_service env st s).2.1 rest).2.2) := rfl

/-- Over the global `services` list, only the Bot entry contributes: the
three non-Bot stops are `None`-returning no-ops, so the collected results
are `[None, True, None, None]` and the accumulated trace is exactly the
Bot's stop trace. -/
lemma stop_services_services (env : Env) (st : St) :
    stop_services env st services =
      ([("API", none), ("Bot", some true),
        ("Rembg Tool", none), ("Image Generation Tool", none)],
       (stop_service env st botService).2.1,
       (stop_service env st botService).2.2) := by
  have hapi := stop_service_nonbot env st apiService (by decide)
  have hrem := stop_service_nonbot env (stop_service env st botService).2.1
    rembgService (by decide)
  have hima := stop_service_nonbot env (stop_service env st botService).2.1
    imagenService (by decide)
  have hn1 : apiService.name = "API" := rfl
  have hn2 : botService.name = "Bot" := rfl
  have hn3 : rembgService.name = "Rembg Tool" := rfl
  have hn4 : imagenService.name = "Image Generation Tool" := rfl
  show stop_services env st [apiService, botService, rembgService, imagenService] = _
  simp only [stop_services_cons, stop_services, hapi, hrem, hima,
    stop_service_bot_fst, hn1, hn2, hn3, hn4, List.nil_append, List.append_nil]

lemma stop_all_services_fst (env : Env) (st : St) :
    (stop_all_services env st).1 = false := by
  unfold stop_all_services
  rw [stop_services_services]
  rfl

lemma stop_all_services_state (env : Env) (st : St) :
    (stop_all_services env st).2.1 = (stop_service env st botService).2.1 := by
  unfold stop_all_services
  rw [stop_services_services]

lemma stop_all_services_trace (env : Env) (st : St) :
    (stop_all_services env st).2.2 = (stop_service env st botService).2.2 := by
  unfold stop_all_services
  rw [stop_services_services]

lemma verifyTrace_no_term (env : Env) :
    ∀ a ∈ verifyTrace env, isTerm a = false := by
  intro a h
  unfold verifyTrace at h
  cases hv : env.verifyClean 0 <;> simp [hv] at h
  · rcases h with h | h | h <;> subst h <;> rfl
  · subst h; rfl

lemma verifyTrace_no_exit (env : Env) :
    ∀ a ∈ verifyTrace env, isExit a = false := by
  intro a h
  unfold verifyTrace at h
  cases hv : env.verifyClean 0 <;> simp [hv] at h
  · rcases h with h | h | h <;> subst h <;> rfl
  · subst h; rfl

lemma shutdown_sets_flag (env : Env) (st : St) :
    ((shutdown env st).1).shutdownInProgress = true := by
  unfold shutdown
  by_cases hf : st.shutdownInProgress = true
  · rw [if_pos hf]; exact hf
  · rw [if_neg hf]
    cases hw : env.signalWriteOk
    · simp [hw]
    · simp [hw, stop_all_services_state, stop_service_flag]

lemma shutdown_trace (env : Env) (st : St) (hf : st.shutdownInProgress = false) :
    (shutdown env st).2 =
      shutdownBody env { st with shutdownInProgress := true } ++ [Action.exitSelf] := by
  unfold shutdown
  rw [if_neg (by simp [hf])]

lemma stop_service_bot_tracked (env : Env) (st : St) (p : Nat)
    (hb : st.botProcess = some p) (ha : env.botAliveAfterSignal = true) :
    stop_service env st botService =
      (some true, { st with botProcess := none },
        Action.writeSignalFile :: Action.sleepA 3 ::
          Action.terminate p :: Action.waitProc p 5 ::
            (if env.botExitsInWait then [] else [Action.kill p]) ++
          cleanupTrace env) := by
  unfold stop_service
  rw [if_pos (show botService.name = "Bot" from rfl), hb]
  simp [ha]

lemma kill_not_mem_verifyTrace (env : Env) (q : Nat) :
    Action.kill q ∉ verifyTrace env := by
  unfold verifyTrace
  cases hv : env.verifyClean 0 <;> simp

lemma term_not_mem_verifyTrace (env : Env) (q : Nat) :
    Action.terminate q ∉ verifyTrace env := by
  unfold verifyTrace
  cases hv : env.verifyClean 0 <;> simp

lemma kill_not_mem_cleanupTrace (env : Env) (q : Nat) :
    Action.kill q ∉ cleanupTrace env := by
  unfold cleanupTrace
  cases hs : env.signalFilePresent <;> simp

lemma term_not_mem_cleanupTrace (env : Env) (q : Nat) :
    Action.terminate q ∉ cleanupTrace env := by
  unfold cleanupTrace
  cases hs : env.signalFilePresent <;> simp

lemma shutdownBody_no_exit (env : Env) (st1 : St) :
    ∀ a ∈ shutdownBody env st1, isExit a = false := by
  intro a h
  unfold shutdownBody at h
  cases hw : env.signalWriteOk
  · rw [hw] at h
    simp at h
    subst h; rfl
  · rw [hw, if_pos rfl] at h
    simp only [List.mem_cons, List.mem_append] at h
    rcases h with ((h | h | h) | h | h | h) | h
    · subst h; rfl
    · subst h; rfl
    · exact stopAct_not_exit (stop_services_acts env services st1 a h)
    · subst h; rfl
    · subst h; rfl
    · exact verifyTrace_no_exit env a h
    · exact stopAct_not_exit (cleanupTrace_acts env a h)

lemma cleanupTrace_no_term (env : Env) :
    ∀ a ∈ cleanupTrace env, isTerm a = false := by
  intro a h
  unfold cleanupTrace at h
  cases hs : env.signalFilePresent <;> simp [hs] at h
  subst h; rfl

lemma not_mem_probeLoop_of (env : Env) (name : String) (maxA fuel attempt : Nat)
    (a : Action) (h1 : ∀ b, ¬ a = Action.probe name b)
    (h2 : ¬ a = Action.sleepA 2) :
    a ∉ (probeLoop env name maxA fuel attempt).2 := by
  intro hmem
  rcases probeLoop_acts env name maxA fuel attempt a hmem with ⟨b, hb⟩ | hb
  · exact h1 b hb
  · exact h2 hb

lemma not_mem_startPoll_of (env : Env) (name : String) (fuel i : Nat)
    (a : Action) (h1 : ∀ b, ¬ a = Action.probe name b)
    (h2 : ¬ a = Action.sleepA 2) :
    a ∉ (startPoll env name fuel i).2 := by
  intro hmem
  rcases startPoll_acts env name fuel i a hmem with ⟨b, hb⟩ | hb
  · exact h1 b hb
  · exact h2 hb

/-- First probe success at offset `m` of the retry loop: the loop reports
success, slept `m` times 2 units (once after each failed attempt) and
performed no spawn, terminate or kill. -/
lemma probeLoop_success (env : Env) (name : String) (maxA : Nat) :
    ∀ (m fuel attempt : Nat), m < fuel → attempt + m < maxA →
      (∀ j, j < m → probeOk env name (attempt + j) = false) →
      probeOk env name (attempt + m) = true →
      (probeLoop env name maxA fuel attempt).1 = true ∧
      ((probeLoop env name maxA fuel attempt).2.countP fun a => isSleep2 a) = m ∧
      ((probeLoop env name maxA fuel attempt).2.countP fun a => isSpawn a) = 0 ∧
      ((probeLoop env name maxA fuel attempt).2.countP fun a => isTerm a) = 0 ∧
      ((probeLoop env name maxA fuel attempt).2.countP fun a => isKill a) = 0 := by
  intro m
  induction m with
  | zero =>
    intro fuel attempt hfuel _ _ hsucc
    cases fuel with
    | zero => omega
    | succ n =>
      rw [Nat.add_zero] at hsucc
      have heq : probeLoop env name maxA (n + 1) attempt =
          (true, [Action.probe name true]) := by
        rw [probeLoop, if_pos hsucc]
      rw [heq]
      exact ⟨rfl, rfl, rfl, rfl, rfl⟩
  | succ m ih =>
    intro fuel attempt hfuel hmax hfail hsucc
    cases fuel with
    | zero => omega
    | succ n =>
      have h0 : probeOk env name attempt = false := by
        have := hfail 0 (by omega)
        rwa [Nat.add_zero] at this
      have hcond : attempt + 1 < maxA := by omega
      obtain ⟨i1, i2, i3, i4, i5⟩ := ih n (attempt + 1) (by omega) (by omega)
        (fun j hj => by
          have := hfail (j + 1) (by omega)
          rwa [show attempt + (j + 1) = attempt + 1 + j by omega] at this)
        (by
          have := hsucc
          rwa [show attempt + (m + 1) = attempt + 1 + m by omega] at this)
      have heq : probeLoop env name maxA (n + 1) attempt =
          ((probeLoop env name maxA n (attempt + 1)).1,
            Action.probe name false :: Action.sleepA 2 ::
              (probeLoop env name maxA n (attempt + 1)).2) := by
        rw [probeLoop]
        simp only [h0, Bool.false_eq_true, if_false, if_pos hcond]
      rw [heq]
      refine ⟨i1, ?_, ?_, ?_, ?_⟩ <;>
        simp only [List.countP_cons, i2, i3, i4, i5] <;>
        simp [isSleep2, isSpawn, isTerm, isKill]

/-- When every probe of the retry loop fails, `ensure_service_running` on a
non-bot service falls through to the port-conflict cleanup followed by
`Startup.start`. -/
lemma ensure_fail_shape (env : Env) (st : St) (svc : Startup) (cp : String)
    (hn : ¬ svc.name = "Bot") (hcp : svc.command_path = some cp)
    (hE : ∀ j, probeOk env svc.name j = false) :
    ensure_service_running env st svc 5 =
      ((startPoll env svc.name (svc.startupTimeout / 2) 0).1, st,
        (probeLoop env svc.name 5 5 0).2 ++
          (match svc.port with
            | none => []
            | some prt =>
              match env.portProc prt with
              | none => []
              | some pid => escalate env pid) ++
          Action.spawn svc.name :: (startPoll env svc.name (svc.startupTimeout / 2) 0).2) := by
  unfold ensure_service_running Startup.start
  rw [if_neg hn, hcp]
  simp only [probeLoop_fail env svc.name 5 hE 5 0, Bool.false_eq_true, if_false,
    if_neg hn]

/-- When no live tracked bot exists, `ensure_service_running` on the bot
delegates to `Startup.start`: spawn, settle 5 units, report liveness. -/
lemma ensure_bot (env : Env) (st : St)
    (h : st.botProcess = none ∨ env.trackedBotAlive = false) :
    ensure_service_running env st botService 5 =
      (botSettleAlive env, { st with botProcess := some env.newPid },
        [Action.spawn "Bot", Action.sleepA 5]) := by
  unfold ensure_service_running Startup.start
  rw [if_pos (show botService.name = "Bot" from rfl)]
  cases hb : st.botProcess with
  | none => rfl
  | some p =>
    rcases h with h | h
    · rw [hb] at h; cases h
    · rw [h]
      rfl

lemma ensure_services_names (env : Env) :
    ∀ (l : List Startup) (st : St),
      (ensure_services_running env st l).1.map Prod.fst = l.map Startup.name := by
  intro l
  induction l with
  | nil => intro st; rfl
  | cons s rest ih =>
    intro st
    show s.name :: (ensure_services_running env _ rest).1.map Prod.fst = _
    rw [ih, List.map_cons]

/-! ### Claim theorems -/

/-- C6: the health probe `is_running` returns a boolean and never throws
(it is a total function of the observed HTTP outcome, because both
`aiohttp.ClientError` and `asyncio.TimeoutError` are caught): it returns
`true` iff the GET returned status 200, and `false` on a connection error,
a timeout, or any non-success status. -/
theorem C6_probe_contract :
    (∀ r, is_running r = true ↔ r = HttpResult.ok 200) ∧
    is_running HttpResult.connError = false ∧
    is_running HttpResult.timeout = false ∧
    (∀ s, ¬ s = 200 → is_running (HttpResult.ok s) = false) := by
  refine ⟨?_, rfl, rfl, ?_⟩
  · intro r
    cases r with
    | ok s => simp [is_running]
    | connError => simp [is_running]
    | timeout => simp [is_running]
  · intro s hs
    simpa [is_running] using hs

/-- Witness for C6 at concrete probe outcomes. -/
theorem C6_probe_contract_witness :
    is_running (HttpResult.ok 200) = true ∧
    is_running (HttpResult.ok 500) = false ∧
    is_running HttpResult.connError = false :=
  ⟨(C6_probe_contract.1 (HttpResult.ok 200)).mpr rfl,
    C6_probe_contract.2.2.2 500 (by decide),
    C6_probe_contract.2.1⟩

/-- C10: `Startup.stop` on any non-bot service performs no action and
returns Python `None` (not `True`), so the graceful-stop layer of
`shutdown` only ever gracefully stops the Bot (the accumulated
`stop_all_services` trace is exactly the Bot's stop trace), and
`stop_all_services` — whose global `services` list contains three non-bot
entries — always returns `False`. -/
theorem C10_nonbot_stop_noop (env : Env) (st : St) :
    (∀ svc : Startup, ¬ svc.name = "Bot" →
      Startup.stop env st svc = (none, st, [])) ∧
    (stop_all_services env st).1 = false ∧
    (stop_all_services env st).2.2 = (stop_service env st botService).2.2 :=
  ⟨fun svc h => Startup.stop_nonbot env st svc h,
    stop_all_services_fst env st,
    stop_all_services_trace env st⟩

/-- Witness for C10 at a concrete environment and state. -/
theorem C10_nonbot_stop_noop_witness :
    Startup.stop env0 st0 apiService = (none, st0, []) ∧
    (stop_all_services env0 st0).1 = false :=
  ⟨(C10_nonbot_stop_noop env0 st0).1 apiService (by decide),
    (C10_nonbot_stop_noop env0 st0).2.1⟩

/-- C7: for the bot service, `ensure_service_running` returns success with
no action at all (in particular no spawn, and the tracked process is left
unchanged — no duplicate) whenever a tracked bot process exists and is
alive; otherwise it spawns the bot, sleeps the fixed 5-unit settle delay,
and returns success iff the spawned process is then still alive
(`botSettleAlive`), recording the new pid. -/
theorem C7_bot_ensure (env : Env) (st : St) :
    (¬ st.botProcess = none → env.trackedBotAlive = true →
      ensure_service_running env st botService 5 = (true, st, [])) ∧
    ((st.botProcess = none ∨ env.trackedBotAlive = false) →
      (ensure_service_running env st botService 5).1 = botSettleAlive env ∧
      (ensure_service_running env st botService 5).2.2 =
        [Action.spawn "Bot", Action.sleepA 5] ∧
      (ensure_service_running env st botService 5).2.1 =
        { st with botProcess := some env.newPid }) := by
  constructor
  · intro hne halive
    unfold ensure_service_running
    rw [if_pos (show botService.name = "Bot" from rfl)]
    cases hb : st.botProcess with
    | none => exact absurd hb hne
    | some p => rw [if_pos halive]
  · intro h
    rw [ensure_bot env st h]
    exact ⟨rfl, rfl, rfl⟩

/-- Witness for C7: an alive tracked bot is left untouched; with nothing
tracked, the launch path spawns and reports settle-liveness. -/
theorem C7_bot_ensure_witness :
    ensure_service_running envUp3 st7 botService 5 = (true, st7, []) ∧
    (ensure_service_running envUp3 st0 botService 5).1 = botSettleAlive envUp3 := by
  refine ⟨(C7_bot_ensure envUp3 st7).1 (by simp [st7]) rfl, ?_⟩
  exact ((C7_bot_ensure envUp3 st0).2 (Or.inl rfl)).1

/-- C1: the `shutdown_in_progress` flag makes `shutdown` idempotent: a call
while the flag is already set returns immediately with an empty trace (no
teardown step and no kill is duplicated); after any call the flag is set,
so a second call always contributes an empty trace; and across two
successive calls starting from a flag-clear state, exactly one teardown
sequence — witnessed by its unique final `os._exit` — executes. -/
theorem C1_shutdown_idempotent (env1 env2 : Env) (st : St) :
    (st.shutdownInProgress = true → shutdown env1 st = (st, [])) ∧
    (shutdown env2 (shutdown env1 st).1).2 = [] ∧
    (st.shutdownInProgress = false →
      (((shutdown env1 st).2 ++ (shutdown env2 (shutdown env1 st).1).2).countP
        fun a => isExit a) = 1) := by
  have hsecond : (shutdown env2 (shutdown env1 st).1).2 = [] := by
    rw [shutdown, if_pos (shutdown_sets_flag env1 st)]
  refine ⟨fun h => by rw [shutdown, if_pos h], hsecond, fun h => ?_⟩
  rw [hsecond, List.append_nil, shutdown_trace env1 st h, List.countP_append]
  have hzero : ((shutdownBody env1 { st with shutdownInProgress := true }).countP
      fun a => isExit a) = 0 :=
    List.countP_eq_zero.mpr fun a ha => by
      simp [shutdownBody_no_exit env1 _ a ha]
  rw [hzero]
  rfl

/-- Witness for C1 at a concrete environment and state. -/
theorem C1_shutdown_idempotent_witness :
    st0.shutdownInProgress = false ∧
    (shutdown env0 (shutdown env0 st0).1).2 = [] ∧
    (((shutdown env0 st0).2 ++ (shutdown env0 (shutdown env0 st0).1).2).countP
      fun a => isExit a) = 1 :=
  ⟨rfl, (C1_shutdown_idempotent env0 env0 st0).2.1,
    (C1_shutdown_idempotent env0 env0 st0).2.2 rfl⟩

/-- C4: within a single teardown execution of `shutdown` (the guard flag
was clear), on the normal path the signal-file write is the first action
and the 2-unit grace wait the second, every graceful terminate of the
stop layer comes strictly later, and every graceful terminate strictly
precedes every `forceful_kill_processes` sweep; and on every path —
the exception path included — the trace ends with the unconditional
`os._exit`, so the supervisor never hangs. -/
theorem C4_shutdown_ordering (env : Env) (st : St)
    (hf : st.shutdownInProgress = false) :
    (env.signalWriteOk = true →
      (shutdown env st).2.head? = some Action.writeSignalFile ∧
      (shutdown env st).2.tail.head? = some (Action.sleepA 2) ∧
      notBefore isTerm 2 (shutdown env st).2) ∧
    precedes isTerm isSweep (shutdown env st).2 ∧
    (shutdown env st).2.getLast? = some Action.exitSelf := by
  have ht := shutdown_trace env st hf
  refine ⟨?_, ?_, ?_⟩
  · intro hw
    have ht2 : (shutdown env st).2 =
        Action.writeSignalFile :: Action.sleepA 2 ::
          ((stop_all_services env { st with shutdownInProgress := true }).2.2 ++
            (Action.sleepA 1 :: Action.sweep ::
              (verifyTrace env ++ (cleanupTrace env ++ [Action.exitSelf])))) := by
      rw [ht]
      unfold shutdownBody
      rw [if_pos hw]
      simp [List.cons_append, List.append_assoc]
    refine ⟨by rw [ht2]; rfl, by rw [ht2]; rfl, ?_⟩
    rw [ht2]
    exact notBefore_two _ _ _ _ rfl rfl
  · cases hw : env.signalWriteOk
    · have htr : (shutdown env st).2 = [Action.emergencyKill, Action.exitSelf] := by
        rw [ht]
        unfold shutdownBody
        simp [hw]
      rw [htr]
      refine precedes_of_no_p _ _ _ ?_
      intro a ha
      rcases List.mem_cons.mp ha with h | h
      · subst h; rfl
      · rcases List.mem_cons.mp h with h | h
        · subst h; rfl
        · simp at h
    · have ht3 : (shutdown env st).2 =
          (Action.writeSignalFile :: Action.sleepA 2 ::
            (stop_all_services env { st with shutdownInProgress := true }).2.2) ++
          (Action.sleepA 1 :: Action.sweep ::
            (verifyTrace env ++ (cleanupTrace env ++ [Action.exitSelf]))) := by
        rw [ht]
        unfold shutdownBody
        rw [if_pos hw]
        simp [List.cons_append, List.append_assoc]
      rw [ht3]
      refine ordered_of_split' _ _ _ _ ?_ ?_
      · intro a ha
        rcases List.mem_cons.mp ha with h | h
        · subst h; rfl
        rcases List.mem_cons.mp h with h | h
        · subst h; rfl
        rcases List.mem_append.mp h with h | h
        · exact verifyTrace_no_term env a h
        rcases List.mem_append.mp h with h | h
        · exact cleanupTrace_no_term env a h
        · simp at h; subst h; rfl
      · intro a ha
        rcases List.mem_cons.mp ha with h | h
        · subst h; rfl
        rcases List.mem_cons.mp h with h | h
        · subst h; rfl
        · exact stopAct_not_sweep (stop_services_acts env services _ a h)
  · rw [ht]
    exact List.getLast?_concat _

/-- Witness for C4 at a concrete environment and state. -/
theorem C4_shutdown_ordering_witness :
    (shutdown env0 st0).2.head? = some Action.writeSignalFile ∧
    (shutdown env0 st0).2.tail.head? = some (Action.sleepA 2) ∧
    (shutdown env0 st0).2.getLast? = some Action.exitSelf := by
  obtain ⟨h1, _, h3⟩ := C4_shutdown_ordering env0 st0 rfl
  exact ⟨(h1 rfl).1, (h1 rfl).2.1, h3⟩

/-- C2 counterexample: the claim requires every tracked process to receive
a graceful terminate (interrupt/terminate) signal during `shutdown`, but
when the tracked bot exits by itself during the 3-unit signal-file grace
window (so `poll()` is no longer `None` at init_functions.py line 278),
the whole shutdown trace contains no terminate action at all. -/
theorem C2_counterexample :
    st7.botProcess = some 7 ∧
    ((shutdown envBotGone st7).2.countP fun a => isTerm a) = 0 :=
  ⟨rfl, by decide⟩

/-- C2 (amended): the supervisor tracks at most one process — the bot — so
a shutdown with three tracked processes cannot occur.  During `shutdown`
with a tracked bot that is still alive after the signal-file grace window,
that process receives the graceful terminate signal and the 5-unit wait,
the per-process forceful kill happens iff it did not exit within the wait,
and no other pid receives a graceful terminate (untracked tool processes
are only covered by the coarse `forceful_kill_processes` sweep). -/
theorem C2_tracked_escalation (env : Env) (st : St) (p : Nat)
    (hf : st.shutdownInProgress = false) (hb : st.botProcess = some p)
    (hw : env.signalWriteOk = true) (ha : env.botAliveAfterSignal = true) :
    Action.terminate p ∈ (shutdown env st).2 ∧
    Action.waitProc p 5 ∈ (shutdown env st).2 ∧
    (Action.kill p ∈ (shutdown env st).2 ↔ env.botExitsInWait = false) ∧
    (∀ q, Action.terminate q ∈ (shutdown env st).2 → q = p) ∧
    (∀ s : St, trackedCount s ≤ 1) := by
  have hb1 : ({ st with shutdownInProgress := true } : St).botProcess = some p := hb
  have hsa : (stop_all_services env { st with shutdownInProgress := true }).2.2 =
      Action.writeSignalFile :: Action.sleepA 3 ::
        Action.terminate p :: Action.waitProc p 5 ::
          (if env.botExitsInWait then [] else [Action.kill p]) ++
        cleanupTrace env := by
    rw [stop_all_services_trace, stop_service_bot_tracked env _ p hb1 ha]
  have ht2 : (shutdown env st).2 =
      Action.writeSignalFile :: Action.sleepA 2 ::
        ((stop_all_services env { st with shutdownInProgress := true }).2.2 ++
          (Action.sleepA 1 :: Action.sweep ::
            (verifyTrace env ++ (cleanupTrace env ++ [Action.exitSelf])))) := by
    rw [shutdown_trace env st hf]
    unfold shutdownBody
    rw [if_pos hw]
    simp [List.cons_append, List.append_assoc]
  rw [ht2, hsa]
  refine ⟨?_, ?_, ?_, ?_, ?_⟩
  · simp
  · simp
  · cases hbw : env.botExitsInWait <;>
      simp [hbw, kill_not_mem_verifyTrace env p, kill_not_mem_cleanupTrace env p]
  · intro q hq
    cases hbw : env.botExitsInWait <;>
      rw [hbw] at hq <;>
      simp [term_not_mem_verifyTrace env q, term_not_mem_cleanupTrace env q] at hq <;>
      exact hq
  · intro s
    unfold trackedCount
    cases s.botProcess <;> simp

/-- Witness for the amended C2 at a concrete environment and state. -/
theorem C2_tracked_escalation_witness :
    Action.terminate 7 ∈ (shutdown env0 st7).2 ∧
    Action.waitProc 7 5 ∈ (shutdown env0 st7).2 ∧
    (Action.kill 7 ∈ (shutdown env0 st7).2 ↔ env0.botExitsInWait = false) := by
  obtain ⟨h1, h2, h3, _, _⟩ := C2_tracked_escalation env0 st7 7 rfl rfl rfl rfl
  exact ⟨h1, h2, h3⟩

/-- C3: for a non-bot service whose health probe first succeeds on attempt
`k` of the 5-attempt loop, `ensure_service_running` returns success with
the state untouched, having spawned, terminated and killed nothing and
slept exactly `k - 1` retry delays of 2 time units. -/
theorem C3_probe_success_no_spawn (env : Env) (st : St) (svc : Startup)
    (k : Nat) (hn : ¬ svc.name = "Bot") (hk1 : 1 ≤ k) (hk5 : k ≤ 5)
    (hfail : ∀ j, j < k - 1 → probeOk env svc.name j = false)
    (hsucc : probeOk env svc.name (k - 1) = true) :
    (ensure_service_running env st svc 5).1 = true ∧
    (ensure_service_running env st svc 5).2.1 = st ∧
    ((ensure_service_running env st svc 5).2.2.countP fun a => isSleep2 a) = k - 1 ∧
    ((ensure_service_running env st svc 5).2.2.countP fun a => isSpawn a) = 0 ∧
    ((ensure_service_running env st svc 5).2.2.countP fun a => isTerm a) = 0 ∧
    ((ensure_service_running env st svc 5).2.2.countP fun a => isKill a) = 0 := by
  obtain ⟨p1, p2, p3, p4, p5⟩ := probeLoop_success env svc.name 5 (k - 1) 5 0
    (by omega) (by omega)
    (fun j hj => by simpa using hfail j hj)
    (by simpa using hsucc)
  have hens : ensure_service_running env st svc 5 =
      (true, st, (probeLoop env svc.name 5 5 0).2) := by
    unfold ensure_service_running
    rw [if_neg hn]
    simp only [p1, if_true]
  rw [hens]
  exact ⟨rfl, rfl, p2, p3, p4, p5⟩

/-- Witness for C3: the Rembg service's probe succeeds on attempt 3 of
5, so `ensure_service_running` succeeds after exactly 2 retry delays with
no spawn. -/
theorem C3_probe_success_no_spawn_witness :
    (ensure_service_running envUp3 st0 rembgService 5).1 = true ∧
    (ensure_service_running envUp3 st0 rembgService 5).2.1 = st0 ∧
    ((ensure_service_running envUp3 st0 rembgService 5).2.2.countP
      fun a => isSleep2 a) = 2 ∧
    ((ensure_service_running envUp3 st0 rembgService 5).2.2.countP
      fun a => isSpawn a) = 0 := by
  obtain ⟨h1, h2, h3, h4, _, _⟩ := C3_probe_success_no_spawn envUp3 st0 rembgService 3
    (by decide) (by decide) (by decide)
    (fun j hj => by
      interval_cases j <;> rfl)
    rfl
  exact ⟨h1, h2, h3, h4⟩

/-- C5: when the critical API service never answers a probe (all retry
probes fail) and its launch also fails (no probe during the startup wait
window ever succeeds, so `Startup.start` times out), `initialize_services`
returns failure having spawned at most the API itself: no tool service and
no bot is ever spawned. -/
theorem C5_api_unavailable_aborts (env : Env) (st : St)
    (hE : ∀ j, probeOk env "API" j = false)
    (hS : ∀ j, startProbeOk env "API" j = false) :
    (initialize_services env st).1 = false ∧
    (∀ n, Action.spawn n ∈ (initialize_services env st).2.2 → n = "API") := by
  have hshape := ensure_fail_shape env st apiService "domestic-api/run-api.command"
    (by decide) rfl hE
  have hwait : wait_for_api env st = ensure_service_running env st apiService 5 := rfl
  have hfst : (ensure_service_running env st apiService 5).1 = false := by
    rw [hshape]
    exact startPoll_fail env "API" hS _ 0
  have hinit : initialize_services env st =
      (false, (ensure_service_running env st apiService 5).2.1,
        (ensure_service_running env st apiService 5).2.2) := by
    unfold initialize_services
    rw [hwait]
    simp only [hfst, Bool.false_eq_true, if_false]
  have htrace : (initialize_services env st).2.2 =
      (probeLoop env "API" 5 5 0).2 ++
        (match env.portProc 8000 with
          | none => []
          | some pid => escalate env pid) ++
        Action.spawn "API" :: (startPoll env "API" 30 0).2 := by
    rw [hinit, hshape]
    rfl
  refine ⟨by rw [hinit], ?_⟩
  intro n hn
  rw [htrace] at hn
  rcases List.mem_append.mp hn with hn1 | hn2
  · rcases List.mem_append.mp hn1 with hp | hport
    · rcases probeLoop_acts env "API" 5 5 0 _ hp with ⟨b, hb⟩ | hb <;> simp at hb
    · cases hpp : env.portProc 8000 with
      | none => rw [hpp] at hport; simp at hport
      | some pid =>
        rw [hpp] at hport
        have := escalate_acts env pid _ hport
        simp [stopAct] at this
  · rcases List.mem_cons.mp hn2 with he | hs
    · simpa using he
    · rcases startPoll_acts env "API" 30 0 _ hs with ⟨b, hb⟩ | hb <;> simp at hb

/-- Witness for C5 at a concrete environment where everything is down. -/
theorem C5_api_unavailable_aborts_witness :
    (initialize_services env0 st0).1 = false ∧
    (Action.spawn "Bot" ∈ (initialize_services env0 st0).2.2 → ("Bot" : String) = "API") :=
  ⟨(C5_api_unavailable_aborts env0 st0 (fun _ => rfl) (fun _ => rfl)).1,
    (C5_api_unavailable_aborts env0 st0 (fun _ => rfl) (fun _ => rfl)).2 "Bot"⟩

/-- C8 counterexample: the claim says the pre-launch port-conflict cleanup
only terminates a process that is *not* one the supervisor is tracking,
but `ensure_service_running` applies `find_process_by_port` with no
tracking check: with pid 55 tracked as the bot and also reported on port
8008, the supervisor terminates pid 55 anyway. -/
theorem C8_counterexample :
    st55.botProcess = some 55 ∧
    Action.terminate 55 ∈ (ensure_service_running envPort55 st55 rembgService 5).2.2 :=
  ⟨rfl, by decide⟩

/-- C8 (amended): when all 5 probes of a non-bot service fail and the
service declares a fixed port, the supervisor terminates whatever process
the OS reports on that port — with no exclusion for tracked processes —
waits up to 5 units, force-kills it iff it is still alive after the wait,
and only then spawns the service (every terminate precedes every spawn in
the trace). -/
theorem C8_port_conflict_cleanup (env : Env) (st : St) (svc : Startup)
    (cp : String) (prt pid : Nat)
    (hn : ¬ svc.name = "Bot") (hcp : svc.command_path = some cp)
    (hport : svc.port = some prt) (hfound : env.portProc prt = some pid)
    (hE : ∀ j, probeOk env svc.name j = false) :
    Action.terminate pid ∈ (ensure_service_running env st svc 5).2.2 ∧
    Action.waitProc pid 5 ∈ (ensure_service_running env st svc 5).2.2 ∧
    (Action.kill pid ∈ (ensure_service_running env st svc 5).2.2 ↔
      env.exitsInWait pid = false) ∧
    precedes isTerm isSpawn (ensure_service_running env st svc 5).2.2 := by
  have htr : (ensure_service_running env st svc 5).2.2 =
      ((probeLoop env svc.name 5 5 0).2 ++ escalate env pid) ++
        Action.spawn svc.name :: (startPoll env svc.name (svc.startupTimeout / 2) 0).2 := by
    rw [ensure_fail_shape env st svc cp hn hcp hE, hport]
    simp only [hfound]
  have hkp := not_mem_probeLoop_of env svc.name 5 5 0 (Action.kill pid)
    (by intro b h; cases h) (by intro h; cases h)
  have hks := not_mem_startPoll_of env svc.name (svc.startupTimeout / 2) 0 (Action.kill pid)
    (by intro b h; cases h) (by intro h; cases h)
  rw [htr]
  refine ⟨by simp [escalate], by simp [escalate], ?_, ?_⟩
  · cases he : env.exitsInWait pid <;> simp [escalate, he, hkp, hks]
  · refine ordered_of_split' _ _ _ _ ?_ ?_
    · intro a ha
      rcases List.mem_cons.mp ha with h | h
      · subst h; rfl
      · rcases startPoll_acts env svc.name _ _ a h with ⟨b, hb⟩ | hb <;>
          subst hb <;> rfl
    · intro a ha
      rcases List.mem_append.mp ha with h | h
      · rcases probeLoop_acts env svc.name 5 5 0 a h with ⟨b, hb⟩ | hb <;>
          subst hb <;> rfl
      · exact stopAct_not_spawn (escalate_acts env pid a h)

/-- Witness for the amended C8 at a concrete environment. -/
theorem C8_port_conflict_cleanup_witness :
    Action.terminate 55 ∈ (ensure_service_running envPort55 st0 rembgService 5).2.2 ∧
    (Action.kill 55 ∈ (ensure_service_running envPort55 st0 rembgService 5).2.2 ↔
      envPort55.exitsInWait 55 = false) := by
  obtain ⟨h1, _, h3, _⟩ := C8_port_conflict_cleanup envPort55 st0 rembgService
    "domestic-tools/domestic-rembg/run-rembg.command" 8008 55
    (by decide) rfl rfl rfl (fun _ => rfl)
  exact ⟨h1, h3⟩

/-- C9: a non-critical service whose launch script is missing — so the
spawned `bash` dies at once and no probe ever succeeds — makes
`ensure_service_running` return failure (for HTTP tools via the startup
timeout, for the bot via the settle-delay liveness check), while
`ensure_services_running` still records a result for every listed service
in order, so startup of subsequently-listed services proceeds and the
failure is recorded, not propagated. -/
theorem C9_missing_path_nonfatal (env : Env) (st : St) :
    (∀ (svc : Startup) (cp : String), ¬ svc.name = "Bot" →
      svc.command_path = some cp → commandPathMissing env svc.name →
      (ensure_service_running env st svc 5).1 = false) ∧
    ((st.botProcess = none ∨ env.trackedBotAlive = false) →
      env.pathExists "Bot" = false →
      (ensure_service_running env st botService 5).1 = false) ∧
    (∀ (stx : St) (l : List Startup),
      (ensure_services_running env stx l).1.map Prod.fst = l.map Startup.name) := by
  refine ⟨?_, ?_, fun stx l => ensure_services_names env l stx⟩
  · intro svc cp hn hcp hm
    obtain ⟨_, hE, hS⟩ := hm
    rw [ensure_fail_shape env st svc cp hn hcp hE]
    exact startPoll_fail env svc.name hS _ 0
  · intro h hpath
    rw [ensure_bot env st h]
    show botSettleAlive env = false
    unfold botSettleAlive
    rw [hpath]
    rfl

/-- Witness for C9: Rembg's script is missing; its ensure fails while the
tool loop still visits every tool in order. -/
theorem C9_missing_path_nonfatal_witness :
    commandPathMissing env0 "Rembg Tool" ∧
    (ensure_service_running env0 st0 rembgService 5).1 = false ∧
    (ensure_services_running env0 st0 (services.filter fun s => s.name != "API")).1.map
      Prod.fst = ["Bot", "Rembg Tool", "Image Generation Tool"] := by
  have hm : commandPathMissing env0 "Rembg Tool" := ⟨rfl, fun _ => rfl, fun _ => rfl⟩
  refine ⟨hm, (C9_missing_path_nonfatal env0 st0).1 rembgService
    "domestic-tools/domestic-rembg/run-rembg.command" (by decide) rfl hm, ?_⟩
  rw [(C9_missing_path_nonfatal env0 st0).2.2 st0
    (services.filter fun s => s.name != "API")]
  rfl

end DomesticAI
